import Mathlib

/- Shallow embedding of `server.mjs` from the promptpage repository.

The repository source file contains two variants of the same server, separated
by a document separator; they are embedded below as namespaces `V1` (first
variant, lines 1-146) and `V2` (second variant, lines 147-297).

Modelling decisions:
* JavaScript dynamic values are modelled by the inductive `JSValue`
  (numbers as `Int`; the claims under study exercise only integral values).
* Thrown exceptions are modelled by `Except String`, the `String` being the
  exception message (`e.message`).
* The outbound `fetch` to the completion endpoint is modelled by an oracle
  `FetchResult` passed to the handler as an explicit argument: either the
  network call throws, or it yields a response with an `ok` flag, the text of
  its body (`response.text()`), and the result of `response.json()` (a parsed
  value, or a thrown parse error).
* Request objects arriving through `express.json()` are JSON values, so object
  keys are assumed unique (JSON.parse keeps one binding per key). -/

inductive JSValue where
  | undefined : JSValue
  | null : JSValue
  | bool : Bool → JSValue
  | num : Int → JSValue
  | str : String → JSValue
  | arr : List JSValue → JSValue
  | obj : List (String × JSValue) → JSValue

inductive Role where
  | system : Role
  | user : Role
  | assistant : Role
deriving DecidableEq

/- A chat message `{role, content}`. The content is a `JSValue` because the
handler pushes the raw `prompt` value as content without stringifying it. -/
structure Message where
  role : Role
  content : JSValue

/- JavaScript truthiness, as tested by `if (!prompt)`. -/
def truthy : JSValue → Bool
  | .undefined => false
  | .null => false
  | .bool b => b
  | .num n => n != 0
  | .str s => s != ""
  | .arr _ => true
  | .obj _ => true

mutual

/- JavaScript `String(v)` as used by template-literal interpolation. -/
def jsToString : JSValue → String
  | .undefined => "undefined"
  | .null => "null"
  | .bool true => "true"
  | .bool false => "false"
  | .num n => toString n
  | .str s => s
  | .arr xs => String.intercalate "," (jsArrElems xs)
  | .obj _ => "[object Object]"

/- `Array.prototype.toString` joins with "," and renders null/undefined as "". -/
def jsArrElems : List JSValue → List String
  | [] => []
  | .undefined :: rest => "" :: jsArrElems rest
  | .null :: rest => "" :: jsArrElems rest
  | v :: rest => jsToString v :: jsArrElems rest

end

/- JavaScript `a || b`. -/
def jsOr (v d : JSValue) : JSValue :=
  if truthy v then v else d

/- Property access `v.k` on a receiver known not to be null/undefined
(optional chaining has already short-circuited those). -/
def getPropSafe (v : JSValue) (k : String) : JSValue :=
  match v with
  | .obj fs => (fs.lookup k).getD .undefined
  | _ => .undefined

/- Property access `v.k` that throws a TypeError on null/undefined receivers. -/
def getProp (v : JSValue) (k : String) : Except String JSValue :=
  match v with
  | .undefined =>
      .error ("TypeError: Cannot read properties of undefined (reading " ++ k ++ ")")
  | .null =>
      .error ("TypeError: Cannot read properties of null (reading " ++ k ++ ")")
  | v => .ok (getPropSafe v k)

/- Index access `v[i]` on a non-null receiver (arrays index, strings yield
one-character strings, objects look up the numeric key). -/
def getIndex (v : JSValue) (i : Nat) : JSValue :=
  match v with
  | .arr xs => (xs.get? i).getD .undefined
  | .str s => ((s.toList.get? i).map (fun c => JSValue.str (String.mk [c]))).getD .undefined
  | .obj fs => (fs.lookup (toString i)).getD .undefined
  | _ => .undefined

/- Optional chaining `v?.…`: null/undefined short-circuit to undefined. -/
def optChain (v : JSValue) (f : JSValue → JSValue) : JSValue :=
  match v with
  | .undefined => .undefined
  | .null => .undefined
  | v => f v

/- `for (const x of v)`: arrays iterate their elements, strings their
characters; every other value raises a TypeError. -/
def jsIterate : JSValue → Except String (List JSValue)
  | .arr xs => .ok xs
  | .str s => .ok (s.toList.map (fun c => JSValue.str (String.mk [c])))
  | _ => .error "TypeError: history is not iterable"

/- The history-replay loop shared by both variants (server.mjs lines 80-83 and
214-217): each history entry produces a user message followed by the fixed
assistant placeholder. -/
def replayMsgs : List JSValue → List Message
  | [] => []
  | p :: rest =>
      ⟨.user, p⟩ :: ⟨.assistant, .str "Request completed"⟩ :: replayMsgs rest

/- `reply = data?.choices?.[0]?.message?.content ?? ""` (lines 128 and 279). -/
def extractReply (data : JSValue) : JSValue :=
  let choices := optChain data (fun d => getPropSafe d "choices")
  let c0 := optChain choices (fun c => getIndex c 0)
  let msg := optChain c0 (fun c => getPropSafe c "message")
  let content := optChain msg (fun m => getPropSafe m "content")
  match content with
  | .undefined => .str ""
  | .null => .str ""
  | v => v

/- Outcome of `await response.…` on a delivered upstream response. -/
structure UpstreamResponse where
  ok : Bool
  bodyText : String
  bodyJson : Except String JSValue

/- Oracle for the outbound `fetch`: it throws, or delivers a response. -/
inductive FetchResult where
  | throw : String → FetchResult
  | resp : UpstreamResponse → FetchResult

/- What the handler ends up doing with `res`, or a thrown exception that
escaped the handler (no response sent). -/
inductive Outcome where
  | respond : Nat → JSValue → Outcome
  | crash : String → Outcome

/- A handler run: the messages submitted to the completion endpoint
(`none` when the fetch was never reached) and the outcome. -/
structure HandlerTrace where
  sent : Option (List Message)
  outcome : Outcome

/- `const { prompt, history = [], state = {} } = req.body` (lines 95 and 243).
Destructuring throws on a null/undefined body; the defaults apply exactly when
the respective property is undefined. -/
def destructureBody (body : JSValue) : Except String (JSValue × JSValue × JSValue) :=
  match body with
  | .undefined => .error "TypeError: Cannot destructure property of undefined"
  | .null => .error "TypeError: Cannot destructure property of null"
  | b =>
      let prompt := getPropSafe b "prompt"
      let history :=
        match getPropSafe b "history" with
        | .undefined => JSValue.arr []
        | h => h
      let state :=
        match getPropSafe b "state" with
        | .undefined => JSValue.obj []
        | s => s
      .ok (prompt, history, state)

/- The try-block of the handler (lines 104-133 and 254-284, identical in both
variants): map the fetch outcome to a response. Non-ok responses are answered
502 with the raw body text as details; a throw from the network call or from
`response.json()` is caught and answered 500 with the exception message. -/
def tryFetch : FetchResult → Outcome
  | .throw m =>
      .respond 500 (.obj [("error", .str "Proxy error"), ("details", .str m)])
  | .resp r =>
      if r.ok then
        match r.bodyJson with
        | .error m =>
            .respond 500 (.obj [("error", .str "Proxy error"), ("details", .str m)])
        | .ok data =>
            .respond 200 (.obj [("reply", extractReply data)])
      else
        .respond 502 (.obj [("error", .str "OpenAI request failed"), ("details", .str r.bodyText)])

/- The `POST /api/chat` handler, common to both variants up to the choice of
`buildMessages` (lines 94-134 and 242-285). Note `buildMessages` runs before
the try block: an exception it throws escapes the handler (`Outcome.crash`). -/
def handleChatCore (bm : JSValue → JSValue → Except String (List Message))
    (body : JSValue) (up : FetchResult) : HandlerTrace :=
  match destructureBody body with
  | .error e => ⟨none, .crash e⟩
  | .ok (prompt, history, state) =>
      if truthy prompt then
        match bm history state with
        | .error e => ⟨none, .crash e⟩
        | .ok msgs => ⟨some (msgs ++ [⟨.user, prompt⟩]), tryFetch up⟩
      else
        ⟨none, .respond 400 (.obj [("error", .str "Missing prompt")])⟩

namespace V1

/- The system template of variant 1 (lines 36-74), `.trim()`ed on push, with
the two interpolation slots abstracted. -/
def sysContent (html css : String) : String :=
  String.trim
    ("\nYou are a front‑end assistant. The user is editing a web page.\nThe HTML you're working on is placed inside the the #demo-root element of a following structure\n```html\n<!DOCTYPE html>\n<html lang=\"en\">\n <head>\n  <meta charset=\"UTF-8\">\n  <title>WIP</title>\n  <style id=\"demo-style\">\n  /* CSS you return is placed here (and to document.adoptedStyleSheets) */\n  </style>\n </head>\n <body>\n  <div id=\"app\">\n   <div id=\"demo-root\">\n    <!-- Demo area – HTML you return is placed here -->\n   </div>\n   <!-- Other things you don't need to care about -->\n  </div>\n </body>\n</html>\n```\nThe HTML content is placed within a div block inside a body, so your response can't use html, head, title, body, etc tags.\nWhen the user wants you to add CSS to the whole page (like a background), add it to #demo-root instead of html or body.\n\nCurrent HTML (inside #demo-root):\n```html\n"
      ++ html
      ++ "\n```\n\nCurrent CSS (scoped to #demo-root):\n```css\n"
      ++ css
      ++ "\n```\n\nOnly respond with **complete** HTML and/or CSS wrapped in fenced code blocks. Additions must also include the existing content, they replace the old content completely.\nWhen making only style changes, omit html, when making only HTML changes, omit css.\n")

/- `buildMessages({ history = [], state = {} })`, variant 1 (lines 32-89).
The two destructured fields are passed as separate arguments; the defaults
fire exactly when the respective argument is undefined. Evaluation order
follows the source: the system template reads `state.html` then `state.css`,
then the history is iterated. -/
def buildMessages (history₀ state₀ : JSValue) : Except String (List Message) :=
  let history := match history₀ with | .undefined => JSValue.arr [] | h => h
  let state := match state₀ with | .undefined => JSValue.obj [] | s => s
  match getProp state "html" with
  | .error e => .error e
  | .ok html =>
    match getProp state "css" with
    | .error e => .error e
    | .ok css =>
      let system :=
        sysContent (jsToString (jsOr html (.str "<!-- none -->")))
          (jsToString (jsOr css (.str "/* none */")))
      match jsIterate history with
      | .error e => .error e
      | .ok items => .ok (⟨.system, .str system⟩ :: replayMsgs items)

/- The `POST /api/chat` handler of variant 1 (lines 94-134). -/
def handleChat (body : JSValue) (up : FetchResult) : HandlerTrace :=
  handleChatCore buildMessages body up

end V1

namespace V2

/- The fixed system instruction text of variant 2 (lines 184-207), `.trim()`ed. -/
def sysContent : String :=
  String.trim
    "\nYou are a front‑end assistant. The user is editing a web page.\nThe HTML you're working on is placed inside the the #demo-root element of a following structure\n```html\n<!DOCTYPE html>\n<html lang=\"en\">\n <head>\n  <meta charset=\"UTF-8\">\n  <title>WIP</title>\n  <style id=\"demo-style\">/* CSS you return is placed here (and to document.adoptedStyleSheets) */</style>\n </head>\n <body id=\"demo-root\"><!-- Demo area – HTML you return is placed here --></body>\n</html>\n```\nThe HTML content is placed within a body tag, so your response can't use html, head, title, body, etc tags.\n\nWhen you need JavaScript, return it in a fenced block labelled `js` (or `javascript`).\n\nOnly respond with **complete** HTML and/or CSS and/or JS wrapped in fenced code blocks. If you output a block of specific type, it overrides all the previous content of the same type. So additions must also contain all the previous content.\n\nIf there's no change to a type of resource, omit any blocks of that type (existing content can/will be cleared by an empty block). E.g. No js change -> don't output a js block.\n\nThe user may be requesting things one at a time. Try your best to avoid changing things you're not asked to change.\n"

/- The state message template of variant 2 (lines 218-231), with the three
interpolation slots abstracted. -/
def stateContent (html css js : String) : String :=
  "Current HTML (inside #demo-root):\n```html\n"
    ++ html
    ++ "\n```\n\nCurrent CSS (scoped to #demo-root):\n```css\n"
    ++ css
    ++ "\n```\n\nCurrent JavaScript (executed inside the iframe):\n```js\n"
    ++ js
    ++ "\n```"

/- `buildMessages({ history = [], state = {} })`, variant 2 (lines 178-237).
Evaluation order follows the source: the fixed system message is pushed, the
history is iterated, then the state message reads `state.html`, `state.css`,
`state.js` and is pushed after the replay. -/
def buildMessages (history₀ state₀ : JSValue) : Except String (List Message) :=
  let history := match history₀ with | .undefined => JSValue.arr [] | h => h
  let state := match state₀ with | .undefined => JSValue.obj [] | s => s
  match jsIterate history with
  | .error e => .error e
  | .ok items =>
    match getProp state "html" with
    | .error e => .error e
    | .ok html =>
      match getProp state "css" with
      | .error e => .error e
      | .ok css =>
        match getProp state "js" with
        | .error e => .error e
        | .ok js =>
          .ok (⟨.system, .str sysContent⟩ ::
            (replayMsgs items ++
              [⟨.system, .str (stateContent (jsToString (jsOr html (.str "<!-- none -->")))
                (jsToString (jsOr css (.str "/* none */")))
                (jsToString (jsOr js (.str "// none"))))⟩]))

/- The `POST /api/chat` handler of variant 2 (lines 242-285). -/
def handleChat (body : JSValue) (up : FetchResult) : HandlerTrace :=
  handleChatCore buildMessages body up

end V2

/- A request body `{prompt, history, state}` with all three fields present. -/
def reqBody (prompt history state : JSValue) : JSValue :=
  .obj [("prompt", prompt), ("history", history), ("state", state)]

/- The value an interpolation slot receives for an optional string field with
default `d`: the field verbatim when present and non-empty, else `d`. -/
def slotOr : Option String → String → String
  | none, d => d
  | some s, d => if s = "" then d else s

/- The field list of a `state` object whose `html`/`css`/`js` entries are
optional strings. -/
def stateFields (html css js : Option String) : List (String × JSValue) :=
  (match html with | none => [] | some s => [("html", JSValue.str s)]) ++
  (match css with | none => [] | some s => [("css", JSValue.str s)]) ++
  (match js with | none => [] | some s => [("js", JSValue.str s)])

/- What an interpolation slot `state.k || d` evaluates to over a field list. -/
def lookupSlot (sf : List (String × JSValue)) (k d : String) : String :=
  jsToString (jsOr ((sf.lookup k).getD .undefined) (.str d))

/- The system message of variant 1 for a given state field list. -/
def V1.sysMsg (sf : List (String × JSValue)) : Message :=
  ⟨.system, .str (V1.sysContent (lookupSlot sf "html" "<!-- none -->")
    (lookupSlot sf "css" "/* none */"))⟩

/- The fixed system instruction message of variant 2. -/
def V2.sysMsg : Message :=
  ⟨.system, .str V2.sysContent⟩

/- The state message of variant 2 for a given state field list. -/
def V2.stateMsg (sf : List (String × JSValue)) : Message :=
  ⟨.system, .str (V2.stateContent (lookupSlot sf "html" "<!-- none -->")
    (lookupSlot sf "css" "/* none */") (lookupSlot sf "js" "// none"))⟩

/- Evaluation of variant 1's buildMessages on a string history and an object
state. -/
lemma buildMessages_run_v1 (hs : List String) (sf : List (String × JSValue)) :
    V1.buildMessages (.arr (hs.map JSValue.str)) (.obj sf) =
      .ok (V1.sysMsg sf :: replayMsgs (hs.map JSValue.str)) := rfl

/- Evaluation of variant 2's buildMessages on a string history and an object
state. -/
lemma buildMessages_run_v2 (hs : List String) (sf : List (String × JSValue)) :
    V2.buildMessages (.arr (hs.map JSValue.str)) (.obj sf) =
      .ok (V2.sysMsg :: (replayMsgs (hs.map JSValue.str) ++ [V2.stateMsg sf])) := rfl

/- Evaluation of the shared handler core when the prompt is truthy and
building the messages succeeds. -/
lemma handleChatCore_run (bm : JSValue → JSValue → Except String (List Message))
    (body : JSValue) (up : FetchResult) (p h s : JSValue) (msgs : List Message)
    (hb : destructureBody body = .ok (p, h, s)) (hp : truthy p = true)
    (hm : bm h s = .ok msgs) :
    handleChatCore bm body up = ⟨some (msgs ++ [⟨.user, p⟩]), tryFetch up⟩ := by
  simp [handleChatCore, hb, hp, hm]

/- Destructuring a `reqBody` whose history and state fields are present
(not undefined) recovers the three fields. -/
lemma destructureBody_reqBody (p h s : JSValue)
    (hh : h ≠ JSValue.undefined) (hs : s ≠ JSValue.undefined) :
    destructureBody (reqBody p h s) = .ok (p, h, s) := by
  cases h <;> cases s <;>
    simp_all [destructureBody, reqBody, getPropSafe, List.lookup]

/- The history replay contributes two messages per history entry. -/
lemma replayMsgs_length (l : List JSValue) : (replayMsgs l).length = 2 * l.length := by
  induction l with
  | nil => simp [replayMsgs]
  | cons x xs ih => simp [replayMsgs, ih]; omega

/- Every even position of the replay is the user message carrying the
corresponding history entry. -/
lemma replayMsgs_get_even (l : List JSValue) :
    ∀ i, (replayMsgs l)[2 * i]? =
      (l[i]?).map (fun v => (⟨.user, v⟩ : Message)) := by
  induction l with
  | nil => intro i; simp [replayMsgs]
  | cons x xs ih =>
    intro i
    cases i with
    | zero => simp [replayMsgs]
    | succ j =>
      have h2 : 2 * (j + 1) = 2 * j + 1 + 1 := by ring
      rw [h2]
      simpa [replayMsgs] using ih j

/- Every odd position of the replay is the fixed assistant placeholder. -/
lemma replayMsgs_get_odd (l : List JSValue) :
    ∀ i, (replayMsgs l)[2 * i + 1]? =
      (l[i]?).map (fun _ => (⟨.assistant, .str "Request completed"⟩ : Message)) := by
  induction l with
  | nil => intro i; simp [replayMsgs]
  | cons x xs ih =>
    intro i
    cases i with
    | zero => simp [replayMsgs]
    | succ j =>
      have h2 : 2 * (j + 1) + 1 = 2 * j + 1 + 1 + 1 := by ring
      rw [h2]
      simpa [replayMsgs] using ih j

/- The html slot over a state built from optional string fields. -/
lemma lookupSlot_stateFields_html (h c j : Option String) (d : String) :
    lookupSlot (stateFields h c j) "html" d = slotOr h d := by
  rcases h with _ | s
  · rcases c with _ | cs <;> rcases j with _ | js <;>
      simp [lookupSlot, stateFields, List.lookup, jsOr, truthy, jsToString, slotOr]
  · by_cases he : s = "" <;>
      simp [lookupSlot, stateFields, List.lookup, jsOr, truthy, jsToString, slotOr, he]

/- The css slot over a state built from optional string fields. -/
lemma lookupSlot_stateFields_css (h c j : Option String) (d : String) :
    lookupSlot (stateFields h c j) "css" d = slotOr c d := by
  rcases c with _ | s
  · rcases h with _ | hs <;> rcases j with _ | js <;>
      simp [lookupSlot, stateFields, List.lookup, jsOr, truthy, jsToString, slotOr]
  · rcases h with _ | hs <;> by_cases he : s = "" <;>
      simp [lookupSlot, stateFields, List.lookup, jsOr, truthy, jsToString, slotOr, he]

/- The js slot over a state built from optional string fields. -/
lemma lookupSlot_stateFields_js (h c j : Option String) (d : String) :
    lookupSlot (stateFields h c j) "js" d = slotOr j d := by
  rcases j with _ | s
  · rcases h with _ | hs <;> rcases c with _ | cs <;>
      simp [lookupSlot, stateFields, List.lookup, jsOr, truthy, jsToString, slotOr]
  · rcases h with _ | hs <;> rcases c with _ | cs <;> by_cases he : s = "" <;>
      simp [lookupSlot, stateFields, List.lookup, jsOr, truthy, jsToString, slotOr, he]

/- A falsy prompt makes the handler answer 400 immediately: neither
buildMessages nor the fetch is reached. -/
lemma handleChatCore_falsy (bm : JSValue → JSValue → Except String (List Message))
    (fs : List (String × JSValue)) (up : FetchResult)
    (hp : truthy ((fs.lookup "prompt").getD .undefined) = false) :
    handleChatCore bm (.obj fs) up =
      ⟨none, .respond 400 (.obj [("error", .str "Missing prompt")])⟩ := by
  simp [handleChatCore, destructureBody, getPropSafe, hp]

/- A prompt field that is missing or the empty string is falsy. -/
lemma truthy_missing_or_empty (fs : List (String × JSValue))
    (hp : fs.lookup "prompt" = none ∨ fs.lookup "prompt" = some (.str "")) :
    truthy ((fs.lookup "prompt").getD .undefined) = false := by
  rcases hp with h | h <;> simp [h, truthy]

/-- C1: for every inbound request whose `prompt` field is missing or the empty
string, both variants' handlers answer 400 with an error body and never reach
the upstream fetch (`sent = none`); the trace is a constant, hence independent
of the `history` and `state` fields and of the upstream oracle (the server
holds no other state). -/
theorem C1_invalid_prompt_rejected_no_upstream
    (fs : List (String × JSValue)) (up : FetchResult)
    (hp : fs.lookup "prompt" = none ∨ fs.lookup "prompt" = some (.str "")) :
    V1.handleChat (.obj fs) up =
        ⟨none, .respond 400 (.obj [("error", .str "Missing prompt")])⟩
    ∧ V2.handleChat (.obj fs) up =
        ⟨none, .respond 400 (.obj [("error", .str "Missing prompt")])⟩
    ∧ ∀ (fs₂ : List (String × JSValue)) (up₂ : FetchResult),
        (fs₂.lookup "prompt" = none ∨ fs₂.lookup "prompt" = some (.str "")) →
        V1.handleChat (.obj fs) up = V1.handleChat (.obj fs₂) up₂ ∧
        V2.handleChat (.obj fs) up = V2.handleChat (.obj fs₂) up₂ := by
  have k1 := handleChatCore_falsy V1.buildMessages fs up (truthy_missing_or_empty fs hp)
  have k2 := handleChatCore_falsy V2.buildMessages fs up (truthy_missing_or_empty fs hp)
  refine ⟨k1, k2, ?_⟩
  intro fs₂ up₂ hp₂
  have m1 := handleChatCore_falsy V1.buildMessages fs₂ up₂ (truthy_missing_or_empty fs₂ hp₂)
  have m2 := handleChatCore_falsy V2.buildMessages fs₂ up₂ (truthy_missing_or_empty fs₂ hp₂)
  exact ⟨k1.trans m1.symm, k2.trans m2.symm⟩

/-- Witness for C1 at a concrete request with no `prompt` field. -/
theorem C1_invalid_prompt_rejected_no_upstream_witness :
    V1.handleChat (.obj [("history", .num 7)]) (.throw "network down") =
        ⟨none, .respond 400 (.obj [("error", .str "Missing prompt")])⟩
    ∧ V2.handleChat (.obj [("history", .num 7)]) (.throw "network down") =
        ⟨none, .respond 400 (.obj [("error", .str "Missing prompt")])⟩ :=
  ⟨(C1_invalid_prompt_rejected_no_upstream [("history", .num 7)]
      (.throw "network down") (Or.inl rfl)).1,
   (C1_invalid_prompt_rejected_no_upstream [("history", .num 7)]
      (.throw "network down") (Or.inl rfl)).2.1⟩

/-- C2: for every history (list of strings) and every state object, both
variants' buildMessages consist of the system material plus the history
replay; the replay has exactly `2 × history.length` messages, strictly
alternating user/assistant: position `2i` is a user message carrying the
`i`-th history entry (order preserved) and position `2i+1` is the fixed
assistant placeholder "Request completed". -/
theorem C2_history_replay_shape (hs : List String) (sf : List (String × JSValue)) :
    V1.buildMessages (.arr (hs.map JSValue.str)) (.obj sf) =
        .ok (V1.sysMsg sf :: replayMsgs (hs.map JSValue.str))
    ∧ V2.buildMessages (.arr (hs.map JSValue.str)) (.obj sf) =
        .ok (V2.sysMsg :: (replayMsgs (hs.map JSValue.str) ++ [V2.stateMsg sf]))
    ∧ (replayMsgs (hs.map JSValue.str)).length = 2 * hs.length
    ∧ (∀ i, (replayMsgs (hs.map JSValue.str))[2 * i]? =
        (hs[i]?).map (fun s => (⟨.user, .str s⟩ : Message)))
    ∧ (∀ i, (replayMsgs (hs.map JSValue.str))[2 * i + 1]? =
        (hs[i]?).map (fun _ => (⟨.assistant, .str "Request completed"⟩ : Message))) := by
  refine ⟨buildMessages_run_v1 hs sf, buildMessages_run_v2 hs sf, ?_, ?_, ?_⟩
  · simp [replayMsgs_length]
  · intro i
    rw [replayMsgs_get_even]
    rw [List.getElem?_map, Option.map_map]
    exact rfl
  · intro i
    rw [replayMsgs_get_odd]
    rw [List.getElem?_map, Option.map_map]
    exact rfl

/-- C3: when a state field (`html`/`css`/`js`) is absent or the empty string,
the produced system material carries the designated placeholder
(`<!-- none -->`, `/* none */`, `// none`) in that interpolation slot, and a
non-empty field is interpolated verbatim (`slotOr`); the slot value is never
the empty or an undefined fragment. Variant 1 interpolates html/css into its
system message; variant 2 interpolates html/css/js into its state message. -/
theorem C3_state_slot_placeholders (hs : List String) (html css js : Option String) :
    V1.buildMessages (.arr (hs.map JSValue.str)) (.obj (stateFields html css js)) =
        .ok (⟨.system, .str (V1.sysContent (slotOr html "<!-- none -->")
            (slotOr css "/* none */"))⟩ :: replayMsgs (hs.map JSValue.str))
    ∧ V2.buildMessages (.arr (hs.map JSValue.str)) (.obj (stateFields html css js)) =
        .ok (⟨.system, .str V2.sysContent⟩ :: (replayMsgs (hs.map JSValue.str) ++
          [⟨.system, .str (V2.stateContent (slotOr html "<!-- none -->")
            (slotOr css "/* none */") (slotOr js "// none"))⟩]))
    ∧ slotOr html "<!-- none -->" ≠ ""
    ∧ slotOr css "/* none */" ≠ "" ∧ slotOr js "// none" ≠ "" := by
  refine ⟨?_, ?_, ?_, ?_, ?_⟩
  · rw [buildMessages_run_v1 hs (stateFields html css js)]
    simp [V1.sysMsg, lookupSlot_stateFields_html, lookupSlot_stateFields_css]
  · rw [buildMessages_run_v2 hs (stateFields html css js)]
    simp [V2.sysMsg, V2.stateMsg, lookupSlot_stateFields_html,
      lookupSlot_stateFields_css, lookupSlot_stateFields_js]
  · rcases html with _ | s
    · simp [slotOr]
    · by_cases he : s = "" <;> simp [slotOr, he]
  · rcases css with _ | s
    · simp [slotOr]
    · by_cases he : s = "" <;> simp [slotOr, he]
  · rcases js with _ | s
    · simp [slotOr]
    · by_cases he : s = "" <;> simp [slotOr, he]

/- A non-empty string prompt is truthy. -/
lemma truthy_str_of_ne (p : String) (hp : p ≠ "") : truthy (.str p) = true := by
  simp [truthy, hp]

/- Appending one element and consing preserves the last element. -/
lemma getLast_cons_concat (m x : Message) (l : List Message) :
    (m :: (l ++ [x])).getLast? = some x := by
  rw [← List.cons_append, List.getLast?_concat]

/-- C4 counterexample: in variant 1, with history `["a"]`, state
`{html: "H"}` and prompt `"p"`, the submitted message list has no document
state message strictly between the replayed history and the final prompt
message (the list has only four messages: system, user "a", assistant,
user "p"), contradicting the claimed order system instructions / replay /
state / prompt. -/
theorem C4_counterexample_v1_state_not_after_history :
    ¬ ∃ (sys st : Message),
      (V1.handleChat (reqBody (.str "p") (.arr [.str "a"]) (.obj [("html", .str "H")]))
        (.throw "boom")).sent =
      some ([sys] ++ replayMsgs [.str "a"] ++ [st, ⟨.user, .str "p"⟩]) := by
  rintro ⟨sys, st, h⟩
  have hsent : (V1.handleChat (reqBody (.str "p") (.arr [.str "a"])
      (.obj [("html", .str "H")])) (.throw "boom")).sent =
      some (V1.sysMsg [("html", .str "H")] ::
        (replayMsgs [.str "a"] ++ [⟨.user, .str "p"⟩])) := rfl
  rw [hsent] at h
  simp only [Option.some.injEq] at h
  have hl := congrArg List.length h
  simp [replayMsgs] at hl

/-- C4 (amended): for every request with a non-empty prompt, the handler
appends exactly one final user message carrying the prompt, which is the last
message submitted, and buildMessages itself never includes the prompt; the
submitted order is: in variant 2, system instructions, replayed history, the
document-state message, then the prompt; in variant 1 the document state is
interpolated into the initial system message (so it precedes the replayed
history), followed by the replay and then the prompt. -/
theorem C4_amended_message_order (hs : List String) (sf : List (String × JSValue))
    (p : String) (up : FetchResult) (hp : p ≠ "") :
    (V1.handleChat (reqBody (.str p) (.arr (hs.map JSValue.str)) (.obj sf)) up).sent =
        some (V1.sysMsg sf :: (replayMsgs (hs.map JSValue.str) ++ [⟨.user, .str p⟩]))
    ∧ (V2.handleChat (reqBody (.str p) (.arr (hs.map JSValue.str)) (.obj sf)) up).sent =
        some (V2.sysMsg :: (replayMsgs (hs.map JSValue.str) ++ [V2.stateMsg sf, ⟨.user, .str p⟩]))
    ∧ V1.buildMessages (.arr (hs.map JSValue.str)) (.obj sf) =
        .ok (V1.sysMsg sf :: replayMsgs (hs.map JSValue.str))
    ∧ V2.buildMessages (.arr (hs.map JSValue.str)) (.obj sf) =
        .ok (V2.sysMsg :: (replayMsgs (hs.map JSValue.str) ++ [V2.stateMsg sf]))
    ∧ (V1.sysMsg sf :: (replayMsgs (hs.map JSValue.str) ++ [⟨.user, .str p⟩])).getLast? =
        some ⟨.user, .str p⟩
    ∧ (V2.sysMsg :: (replayMsgs (hs.map JSValue.str) ++
        [V2.stateMsg sf, ⟨.user, .str p⟩])).getLast? = some ⟨.user, .str p⟩ := by
  have hb := destructureBody_reqBody (.str p) (.arr (hs.map JSValue.str)) (.obj sf)
    (by simp) (by simp)
  have ht := truthy_str_of_ne p hp
  have r1 := handleChatCore_run V1.buildMessages
    (reqBody (.str p) (.arr (hs.map JSValue.str)) (.obj sf)) up
    (.str p) (.arr (hs.map JSValue.str)) (.obj sf) _ hb ht (buildMessages_run_v1 hs sf)
  have r2 := handleChatCore_run V2.buildMessages
    (reqBody (.str p) (.arr (hs.map JSValue.str)) (.obj sf)) up
    (.str p) (.arr (hs.map JSValue.str)) (.obj sf) _ hb ht (buildMessages_run_v2 hs sf)
  refine ⟨?_, ?_, buildMessages_run_v1 hs sf, buildMessages_run_v2 hs sf, ?_, ?_⟩
  · show (handleChatCore V1.buildMessages _ up).sent = _
    rw [r1]
    simp
  · show (handleChatCore V2.buildMessages _ up).sent = _
    rw [r2]
    simp
  · exact getLast_cons_concat _ _ _
  · have e : replayMsgs (hs.map JSValue.str) ++ [V2.stateMsg sf, ⟨.user, .str p⟩] =
        (replayMsgs (hs.map JSValue.str) ++ [V2.stateMsg sf]) ++ [⟨.user, .str p⟩] := by
      simp
    rw [e]
    exact getLast_cons_concat _ _ _

/-- Witness for C4 (amended) at a concrete request. -/
theorem C4_amended_message_order_witness :
    (V1.handleChat (reqBody (.str "go") (.arr (["a"].map JSValue.str)) (.obj []))
        (.throw "x")).sent =
      some (V1.sysMsg [] :: (replayMsgs (["a"].map JSValue.str) ++ [⟨.user, .str "go"⟩]))
    ∧ (V2.handleChat (reqBody (.str "go") (.arr (["a"].map JSValue.str)) (.obj []))
        (.throw "x")).sent =
      some (V2.sysMsg :: (replayMsgs (["a"].map JSValue.str) ++
        [V2.stateMsg [], ⟨.user, .str "go"⟩])) :=
  ⟨(C4_amended_message_order ["a"] [] "go" (.throw "x") (by decide)).1,
   (C4_amended_message_order ["a"] [] "go" (.throw "x") (by decide)).2.1⟩

/- The try block never lets an exception escape: tryFetch always responds. -/
lemma tryFetch_not_crash (up : FetchResult) : ∀ e, tryFetch up ≠ .crash e := by
  intro e
  cases up with
  | throw m => simp [tryFetch]
  | resp r =>
    by_cases hok : r.ok <;> rcases hj : r.bodyJson with m | data <;>
      simp [tryFetch, hok, hj]

/- The try block only produces the statuses 502, 500 and 200. -/
lemma tryFetch_status (up : FetchResult) (st : Nat) (b : JSValue) :
    tryFetch up = .respond st b → st = 502 ∨ st = 500 ∨ st = 200 := by
  intro h
  cases up with
  | throw m => simp [tryFetch] at h; omega
  | resp r =>
    by_cases hok : r.ok <;> rcases hj : r.bodyJson with m | data <;>
      simp [tryFetch, hok, hj] at h <;> omega

/- Exhaustive characterization of a handler-core run: destructuring throws
(crash), or the prompt is falsy (400 without upstream), or buildMessages
throws (crash, still without upstream), or everything up to the fetch
succeeds and the try block decides the outcome. -/
lemma handleChatCore_spec (bm : JSValue → JSValue → Except String (List Message))
    (body : JSValue) (up : FetchResult) :
    (∃ e, destructureBody body = .error e ∧
        handleChatCore bm body up = ⟨none, .crash e⟩)
    ∨ (∃ p h s, destructureBody body = .ok (p, h, s) ∧ truthy p = false ∧
        handleChatCore bm body up =
          ⟨none, .respond 400 (.obj [("error", .str "Missing prompt")])⟩)
    ∨ (∃ p h s e, destructureBody body = .ok (p, h, s) ∧ truthy p = true ∧
        bm h s = .error e ∧ handleChatCore bm body up = ⟨none, .crash e⟩)
    ∨ (∃ p h s msgs, destructureBody body = .ok (p, h, s) ∧ truthy p = true ∧
        bm h s = .ok msgs ∧
        handleChatCore bm body up = ⟨some (msgs ++ [⟨.user, p⟩]), tryFetch up⟩) := by
  rcases hd : destructureBody body with e | ⟨p, h, s⟩
  · refine Or.inl ⟨e, rfl, ?_⟩
    simp [handleChatCore, hd]
  · by_cases ht : truthy p = true
    · rcases hbm : bm h s with e | msgs
      · refine Or.inr (Or.inr (Or.inl ⟨p, h, s, e, rfl, ht, hbm, ?_⟩))
        simp [handleChatCore, hd, ht, hbm]
      · refine Or.inr (Or.inr (Or.inr ⟨p, h, s, msgs, rfl, ht, hbm, ?_⟩))
        simp [handleChatCore, hd, ht, hbm]
    · have ht' : truthy p = false := by simpa using ht
      refine Or.inr (Or.inl ⟨p, h, s, rfl, ht', ?_⟩)
      simp [handleChatCore, hd, ht']

/- Full outcome characterization of the handler core: a crash happens exactly
when body destructuring or buildMessages throws (both run before the try
block); every sent response has status 400, 502, 500 or 200; once the message
build succeeds the outcome is the try block's, which never crashes; a falsy
prompt is answered 400. -/
lemma handleChatCore_outcomes (bm : JSValue → JSValue → Except String (List Message))
    (body : JSValue) (up : FetchResult) :
    (∀ e, (handleChatCore bm body up).outcome = .crash e →
        destructureBody body = .error e ∨
        ∃ p h s, destructureBody body = .ok (p, h, s) ∧ truthy p = true ∧
          bm h s = .error e)
    ∧ (∀ st b, (handleChatCore bm body up).outcome = .respond st b →
        st = 400 ∨ st = 502 ∨ st = 500 ∨ st = 200)
    ∧ (∀ p h s msgs, destructureBody body = .ok (p, h, s) → truthy p = true →
        bm h s = .ok msgs →
        (handleChatCore bm body up).outcome = tryFetch up ∧
          ∀ e, (handleChatCore bm body up).outcome ≠ .crash e)
    ∧ (∀ p h s, destructureBody body = .ok (p, h, s) → truthy p = false →
        (handleChatCore bm body up).outcome =
          .respond 400 (.obj [("error", .str "Missing prompt")])) := by
  rcases handleChatCore_spec bm body up with ⟨e0, hd0, he⟩ | ⟨p0, h0, s0, hd0, ht0, he⟩ |
    ⟨p0, h0, s0, e0, hd0, ht0, hb0, he⟩ | ⟨p0, h0, s0, msgs0, hd0, ht0, hb0, he⟩ <;>
    rw [he] <;> refine ⟨?_, ?_, ?_, ?_⟩
  · intro e hc
    simp at hc
    subst hc
    exact Or.inl hd0
  · intro st b hr
    simp at hr
  · intro p h s msgs hd
    rw [hd0] at hd
    simp at hd
  · intro p h s hd
    rw [hd0] at hd
    simp at hd
  · intro e hc
    simp at hc
  · intro st b hr
    simp at hr
    exact Or.inl hr.1.symm
  · intro p h s msgs hd ht hbm
    rw [hd0] at hd
    simp at hd
    obtain ⟨hp, hh, hs⟩ := hd
    rw [← hp] at ht
    rw [ht0] at ht
    exact absurd ht (by simp)
  · intro p h s hd ht
    rfl
  · intro e hc
    simp at hc
    subst hc
    exact Or.inr ⟨p0, h0, s0, hd0, ht0, hb0⟩
  · intro st b hr
    simp at hr
  · intro p h s msgs hd ht hbm
    rw [hd0] at hd
    simp at hd
    obtain ⟨hp, hh, hs⟩ := hd
    rw [← hh, ← hs] at hbm
    rw [hb0] at hbm
    exact absurd hbm (by simp)
  · intro p h s hd ht
    rw [hd0] at hd
    simp at hd
    obtain ⟨hp, hh, hs⟩ := hd
    rw [← hp] at ht
    rw [ht0] at ht
    exact absurd ht (by simp)
  · intro e hc
    simp at hc
    exact absurd (show tryFetch up = .crash e by simpa using hc)
      (tryFetch_not_crash up e)
  · intro st b hr
    simp at hr
    exact Or.inr (tryFetch_status up st b hr)
  · intro p h s msgs hd ht hbm
    exact ⟨rfl, fun e => by simpa using tryFetch_not_crash up e⟩
  · intro p h s hd ht
    rw [hd0] at hd
    simp at hd
    obtain ⟨hp, hh, hs⟩ := hd
    rw [← hp] at ht
    rw [ht0] at ht
    exact absurd ht (by simp)

/- When the handler's trace records submitted messages, the outcome is the
try block's mapping of the fetch result. -/
lemma handleChatCore_sent_some (bm : JSValue → JSValue → Except String (List Message))
    (body : JSValue) (up : FetchResult)
    (h : (handleChatCore bm body up).sent ≠ none) :
    (handleChatCore bm body up).outcome = tryFetch up := by
  rcases handleChatCore_spec bm body up with ⟨e0, hd0, he⟩ | ⟨p0, h0, s0, hd0, ht0, he⟩ |
    ⟨p0, h0, s0, e0, hd0, ht0, hb0, he⟩ | ⟨p0, h0, s0, msgs0, hd0, ht0, hb0, he⟩ <;>
    rw [he] at h ⊢ <;> simp_all

/-- C6: whenever the upstream endpoint delivers a non-2xx response and the
handler reached the upstream call, both variants answer 502 with a body whose
`details` is exactly the raw upstream body text; no success or 500 outcome is
possible on that path. -/
theorem C6_upstream_error_502 (body : JSValue) (r : UpstreamResponse)
    (hok : r.ok = false)
    (h1 : (V1.handleChat body (.resp r)).sent ≠ none)
    (h2 : (V2.handleChat body (.resp r)).sent ≠ none) :
    (V1.handleChat body (.resp r)).outcome =
        .respond 502 (.obj [("error", .str "OpenAI request failed"),
          ("details", .str r.bodyText)])
    ∧ (V2.handleChat body (.resp r)).outcome =
        .respond 502 (.obj [("error", .str "OpenAI request failed"),
          ("details", .str r.bodyText)]) := by
  have e1 := handleChatCore_sent_some V1.buildMessages body (.resp r) h1
  have e2 := handleChatCore_sent_some V2.buildMessages body (.resp r) h2
  constructor
  · show (handleChatCore V1.buildMessages body (.resp r)).outcome = _
    rw [e1]
    simp [tryFetch, hok]
  · show (handleChatCore V2.buildMessages body (.resp r)).outcome = _
    rw [e2]
    simp [tryFetch, hok]

/-- Witness for C6 at a concrete request and a concrete 503-style upstream
response. -/
theorem C6_upstream_error_502_witness :
    (V1.handleChat (reqBody (.str "p") (.arr []) (.obj []))
        (.resp ⟨false, "service unavailable", .ok .null⟩)).outcome =
      .respond 502 (.obj [("error", .str "OpenAI request failed"),
        ("details", .str "service unavailable")]) :=
  (C6_upstream_error_502 (reqBody (.str "p") (.arr []) (.obj []))
    ⟨false, "service unavailable", .ok .null⟩ rfl
    (by simp [V1.handleChat, handleChatCore, destructureBody, reqBody,
      getPropSafe, List.lookup, truthy, V1.buildMessages, getProp, jsIterate])
    (by simp [V2.handleChat, handleChatCore, destructureBody, reqBody,
      getPropSafe, List.lookup, truthy, V2.buildMessages, getProp, jsIterate])).1

/-- C7: whenever the network call throws, or the 2xx response body fails to
parse as JSON, both variants catch the exception (no crash) and answer 500
with the exception's message as `details`, provided the handler reached the
upstream call. -/
theorem C7_transport_parse_500 (body : JSValue) :
    (∀ m, (V1.handleChat body (.throw m)).sent ≠ none →
        (V1.handleChat body (.throw m)).outcome =
          .respond 500 (.obj [("error", .str "Proxy error"), ("details", .str m)]))
    ∧ (∀ m, (V2.handleChat body (.throw m)).sent ≠ none →
        (V2.handleChat body (.throw m)).outcome =
          .respond 500 (.obj [("error", .str "Proxy error"), ("details", .str m)]))
    ∧ (∀ t m, (V1.handleChat body (.resp ⟨true, t, .error m⟩)).sent ≠ none →
        (V1.handleChat body (.resp ⟨true, t, .error m⟩)).outcome =
          .respond 500 (.obj [("error", .str "Proxy error"), ("details", .str m)]))
    ∧ (∀ t m, (V2.handleChat body (.resp ⟨true, t, .error m⟩)).sent ≠ none →
        (V2.handleChat body (.resp ⟨true, t, .error m⟩)).outcome =
          .respond 500 (.obj [("error", .str "Proxy error"), ("details", .str m)])) := by
  refine ⟨fun m hm => ?_, fun m hm => ?_, fun t m hm => ?_, fun t m hm => ?_⟩
  · show (handleChatCore V1.buildMessages body (.throw m)).outcome = _
    rw [handleChatCore_sent_some V1.buildMessages body (.throw m) hm]
    simp [tryFetch]
  · show (handleChatCore V2.buildMessages body (.throw m)).outcome = _
    rw [handleChatCore_sent_some V2.buildMessages body (.throw m) hm]
    simp [tryFetch]
  · show (handleChatCore V1.buildMessages body (.resp ⟨true, t, .error m⟩)).outcome = _
    rw [handleChatCore_sent_some V1.buildMessages body (.resp ⟨true, t, .error m⟩) hm]
    simp [tryFetch]
  · show (handleChatCore V2.buildMessages body (.resp ⟨true, t, .error m⟩)).outcome = _
    rw [handleChatCore_sent_some V2.buildMessages body (.resp ⟨true, t, .error m⟩) hm]
    simp [tryFetch]

/-- Witness for C7 at a concrete request with a throwing upstream. -/
theorem C7_transport_parse_500_witness :
    (V1.handleChat (reqBody (.str "p") (.arr []) (.obj [])) (.throw "socket hang up")).outcome =
      .respond 500 (.obj [("error", .str "Proxy error"),
        ("details", .str "socket hang up")]) :=
  (C7_transport_parse_500 (reqBody (.str "p") (.arr []) (.obj []))).1 "socket hang up"
    (by simp [V1.handleChat, handleChatCore, destructureBody, reqBody,
      getPropSafe, List.lookup, truthy, V1.buildMessages, getProp, jsIterate])

/-- C9 counterexample: a request whose `history` field is present but not
iterable (the number 5) makes `buildMessages` throw before the try block in
both variants; the exception escapes the handler (outcome `crash`, no error
response is produced), refuting the claim that every error is recovered at
the request boundary. -/
theorem C9_counterexample_history_not_iterable :
    (V1.handleChat (.obj [("prompt", .str "p"), ("history", .num 5)]) (.throw "x")).outcome =
        .crash "TypeError: history is not iterable"
    ∧ (V2.handleChat (.obj [("prompt", .str "p"), ("history", .num 5)]) (.throw "x")).outcome =
        .crash "TypeError: history is not iterable"
    ∧ (∀ st b, (V1.handleChat (.obj [("prompt", .str "p"), ("history", .num 5)])
        (.throw "x")).outcome ≠ .respond st b)
    ∧ (∀ st b, (V2.handleChat (.obj [("prompt", .str "p"), ("history", .num 5)])
        (.throw "x")).outcome ≠ .respond st b) := by
  refine ⟨rfl, rfl, ?_, ?_⟩ <;> intro st b h
  · rw [show (V1.handleChat (.obj [("prompt", .str "p"), ("history", .num 5)])
      (.throw "x")).outcome = .crash "TypeError: history is not iterable" from rfl] at h
    exact Outcome.noConfusion h
  · rw [show (V2.handleChat (.obj [("prompt", .str "p"), ("history", .num 5)])
      (.throw "x")).outcome = .crash "TypeError: history is not iterable" from rfl] at h
    exact Outcome.noConfusion h

/-- C9 (amended): every response the handler does send has status 400, 502,
500 or 200, and once destructuring and buildMessages succeed no exception
escapes (the try block always responds); but an exception thrown while
destructuring the body or building the messages — e.g. a non-iterable
`history` — is raised before the try block and escapes the handler unhandled. -/
theorem C9_amended_error_recovery (body : JSValue) (up : FetchResult) :
    ((∀ e, (V1.handleChat body up).outcome = .crash e →
        destructureBody body = .error e ∨
        ∃ p h s, destructureBody body = .ok (p, h, s) ∧ truthy p = true ∧
          V1.buildMessages h s = .error e)
     ∧ (∀ st b, (V1.handleChat body up).outcome = .respond st b →
        st = 400 ∨ st = 502 ∨ st = 500 ∨ st = 200)
     ∧ (∀ p h s msgs, destructureBody body = .ok (p, h, s) → truthy p = true →
        V1.buildMessages h s = .ok msgs →
        ∀ e, (V1.handleChat body up).outcome ≠ .crash e))
    ∧ ((∀ e, (V2.handleChat body up).outcome = .crash e →
        destructureBody body = .error e ∨
        ∃ p h s, destructureBody body = .ok (p, h, s) ∧ truthy p = true ∧
          V2.buildMessages h s = .error e)
     ∧ (∀ st b, (V2.handleChat body up).outcome = .respond st b →
        st = 400 ∨ st = 502 ∨ st = 500 ∨ st = 200)
     ∧ (∀ p h s msgs, destructureBody body = .ok (p, h, s) → truthy p = true →
        V2.buildMessages h s = .ok msgs →
        ∀ e, (V2.handleChat body up).outcome ≠ .crash e)) := by
  have o1 := handleChatCore_outcomes V1.buildMessages body up
  have o2 := handleChatCore_outcomes V2.buildMessages body up
  exact ⟨⟨o1.1, o1.2.1, fun p h s msgs hd ht hbm => (o1.2.2.1 p h s msgs hd ht hbm).2⟩,
         ⟨o2.1, o2.2.1, fun p h s msgs hd ht hbm => (o2.2.2.1 p h s msgs hd ht hbm).2⟩⟩

/-- Witness for C9 (amended): at the non-iterable-history request, the crash
characterization names buildMessages as the thrower. -/
theorem C9_amended_error_recovery_witness :
    destructureBody (.obj [("prompt", .str "p"), ("history", .num 5)]) =
        .error "TypeError: history is not iterable" ∨
    ∃ p h s, destructureBody (.obj [("prompt", .str "p"), ("history", .num 5)]) =
        .ok (p, h, s) ∧ truthy p = true ∧
        V1.buildMessages h s = .error "TypeError: history is not iterable" :=
  (C9_amended_error_recovery (.obj [("prompt", .str "p"), ("history", .num 5)])
    (.throw "x")).1.1 "TypeError: history is not iterable" rfl

/- Optional chaining on a non-nullish value applies the accessor. -/
lemma optChain_ne (v : JSValue) (f : JSValue → JSValue)
    (h1 : v ≠ .undefined) (h2 : v ≠ .null) : optChain v f = f v := by
  cases v <;> simp_all [optChain]

/- extractReply yields the first choice's message content when the response
has the expected shape. -/
lemma extractReply_of_content (data : JSValue) (cs : List JSValue) (c0 : JSValue)
    (X : String) (hc : getPropSafe data "choices" = .arr cs) (h0 : cs[0]? = some c0)
    (hX : getPropSafe (getPropSafe c0 "message") "content" = .str X) :
    extractReply data = .str X := by
  have hd1 : data ≠ .undefined := by rintro rfl; simp [getPropSafe] at hc
  have hd2 : data ≠ .null := by rintro rfl; simp [getPropSafe] at hc
  have hc01 : c0 ≠ .undefined := by rintro rfl; simp [getPropSafe] at hX
  have hc02 : c0 ≠ .null := by rintro rfl; simp [getPropSafe] at hX
  have hm1 : getPropSafe c0 "message" ≠ .undefined := by
    intro h
    rw [h] at hX
    simp [getPropSafe] at hX
  have hm2 : getPropSafe c0 "message" ≠ .null := by
    intro h
    rw [h] at hX
    simp [getPropSafe] at hX
  have hidx : getIndex (.arr cs) 0 = c0 := by
    simp [getIndex, List.get?_eq_getElem?, h0]
  simp only [extractReply, optChain_ne data _ hd1 hd2]
  rw [hc]
  simp only [optChain_ne (JSValue.arr cs) _ (by simp) (by simp)]
  rw [hidx]
  simp only [optChain_ne c0 _ hc01 hc02]
  simp only [optChain_ne _ _ hm1 hm2]
  rw [hX]

/- extractReply defaults to the empty string when the expected shape is
absent (no choices, empty choices array, or missing message/content). -/
lemma extractReply_default (data : JSValue)
    (h : getPropSafe data "choices" = .undefined ∨ getPropSafe data "choices" = .arr [] ∨
      ∃ cs c0, getPropSafe data "choices" = .arr cs ∧ cs[0]? = some c0 ∧
        getPropSafe (getPropSafe c0 "message") "content" = .undefined) :
    extractReply data = .str "" := by
  by_cases hd1 : data = .undefined
  · subst hd1; rfl
  by_cases hd2 : data = .null
  · subst hd2; rfl
  rcases h with h | h | ⟨cs, c0, hc, h0, hX⟩
  · simp only [extractReply, optChain_ne data _ hd1 hd2]
    rw [h]
    rfl
  · simp only [extractReply, optChain_ne data _ hd1 hd2]
    rw [h]
    rfl
  · have hidx : getIndex (.arr cs) 0 = c0 := by
      simp [getIndex, List.get?_eq_getElem?, h0]
    by_cases hc01 : c0 = .undefined
    · subst hc01
      simp only [extractReply, optChain_ne data _ hd1 hd2]
      rw [hc]
      simp only [optChain_ne (JSValue.arr cs) _ (by simp) (by simp)]
      rw [hidx]
      rfl
    by_cases hc02 : c0 = .null
    · subst hc02
      simp only [extractReply, optChain_ne data _ hd1 hd2]
      rw [hc]
      simp only [optChain_ne (JSValue.arr cs) _ (by simp) (by simp)]
      rw [hidx]
      rfl
    simp only [extractReply, optChain_ne data _ hd1 hd2]
    rw [hc]
    simp only [optChain_ne (JSValue.arr cs) _ (by simp) (by simp)]
    rw [hidx]
    simp only [optChain_ne c0 _ hc01 hc02]
    rcases hm : getPropSafe c0 "message" with _ | _ | b | n | s | l | o <;>
      rw [hm] at hX <;>
      first
        | rfl
        | (simp only [optChain]; rw [hX])

/-- C5: when the upstream answers 2xx with a JSON body whose
`choices[0].message.content` is the string `X`, both handlers (having reached
the upstream call) respond 200 with `{reply: X}`; when the 2xx body lacks that
shape (missing choices, empty choices array, or missing message/content), they
respond 200 with `{reply: ""}` instead of failing. -/
theorem C5_reply_extraction (body : JSValue) (t : String) (data : JSValue) :
    (∀ (cs : List JSValue) (c0 : JSValue) (X : String),
        getPropSafe data "choices" = .arr cs → cs[0]? = some c0 →
        getPropSafe (getPropSafe c0 "message") "content" = .str X →
        ((V1.handleChat body (.resp ⟨true, t, .ok data⟩)).sent ≠ none →
          (V1.handleChat body (.resp ⟨true, t, .ok data⟩)).outcome =
            .respond 200 (.obj [("reply", .str X)]))
        ∧ ((V2.handleChat body (.resp ⟨true, t, .ok data⟩)).sent ≠ none →
          (V2.handleChat body (.resp ⟨true, t, .ok data⟩)).outcome =
            .respond 200 (.obj [("reply", .str X)])))
    ∧ ((getPropSafe data "choices" = .undefined ∨ getPropSafe data "choices" = .arr [] ∨
        ∃ cs c0, getPropSafe data "choices" = .arr cs ∧ cs[0]? = some c0 ∧
          getPropSafe (getPropSafe c0 "message") "content" = .undefined) →
        ((V1.handleChat body (.resp ⟨true, t, .ok data⟩)).sent ≠ none →
          (V1.handleChat body (.resp ⟨true, t, .ok data⟩)).outcome =
            .respond 200 (.obj [("reply", .str "")]))
        ∧ ((V2.handleChat body (.resp ⟨true, t, .ok data⟩)).sent ≠ none →
          (V2.handleChat body (.resp ⟨true, t, .ok data⟩)).outcome =
            .respond 200 (.obj [("reply", .str "")]))) := by
  constructor
  · intro cs c0 X hc h0 hX
    have hr := extractReply_of_content data cs c0 X hc h0 hX
    constructor <;> intro hsent
    · show (handleChatCore V1.buildMessages body _).outcome = _
      rw [handleChatCore_sent_some V1.buildMessages body _ hsent]
      simp [tryFetch, hr]
    · show (handleChatCore V2.buildMessages body _).outcome = _
      rw [handleChatCore_sent_some V2.buildMessages body _ hsent]
      simp [tryFetch, hr]
  · intro hmal
    have hr := extractReply_default data hmal
    constructor <;> intro hsent
    · show (handleChatCore V1.buildMessages body _).outcome = _
      rw [handleChatCore_sent_some V1.buildMessages body _ hsent]
      simp [tryFetch, hr]
    · show (handleChatCore V2.buildMessages body _).outcome = _
      rw [handleChatCore_sent_some V2.buildMessages body _ hsent]
      simp [tryFetch, hr]

/-- Witness for C5 at concrete well-shaped and malformed upstream bodies. -/
theorem C5_reply_extraction_witness :
    (V1.handleChat (reqBody (.str "p") (.arr []) (.obj []))
        (.resp ⟨true, "",
          .ok (.obj [("choices",
            .arr [.obj [("message", .obj [("content", .str "X")])]])])⟩)).outcome =
      .respond 200 (.obj [("reply", .str "X")])
    ∧ (V1.handleChat (reqBody (.str "p") (.arr []) (.obj []))
        (.resp ⟨true, "", .ok (.obj [])⟩)).outcome =
      .respond 200 (.obj [("reply", .str "")]) := by
  constructor
  · exact ((C5_reply_extraction (reqBody (.str "p") (.arr []) (.obj [])) ""
      (.obj [("choices", .arr [.obj [("message", .obj [("content", .str "X")])]])])).1
      [.obj [("message", .obj [("content", .str "X")])]]
      (.obj [("message", .obj [("content", .str "X")])]) "X" rfl rfl rfl).1
      (by simp [V1.handleChat, handleChatCore, destructureBody, reqBody,
        getPropSafe, List.lookup, truthy, V1.buildMessages, getProp, jsIterate])
  · exact ((C5_reply_extraction (reqBody (.str "p") (.arr []) (.obj [])) ""
      (.obj [])).2 (Or.inl rfl)).1
      (by simp [V1.handleChat, handleChatCore, destructureBody, reqBody,
        getPropSafe, List.lookup, truthy, V1.buildMessages, getProp, jsIterate])

/-- C8: buildMessages is a deterministic function of `(history, state)` in
both variants — two runs on identical inputs produce identical results, in
particular message lists of the same length that agree in role and content at
every position. (Purity holds by construction of the embedding: the source
function reads nothing but its two parameters and performs no I/O.) -/
theorem C8_buildMessages_deterministic (h s : JSValue) :
    (∀ out₁ out₂, V1.buildMessages h s = out₁ → V1.buildMessages h s = out₂ →
        out₁ = out₂)
    ∧ (∀ m₁ m₂, V1.buildMessages h s = .ok m₁ → V1.buildMessages h s = .ok m₂ →
        m₁.length = m₂.length ∧ ∀ i : Nat, m₁[i]? = m₂[i]?)
    ∧ (∀ out₁ out₂, V2.buildMessages h s = out₁ → V2.buildMessages h s = out₂ →
        out₁ = out₂)
    ∧ (∀ m₁ m₂, V2.buildMessages h s = .ok m₁ → V2.buildMessages h s = .ok m₂ →
        m₁.length = m₂.length ∧ ∀ i : Nat, m₁[i]? = m₂[i]?) := by
  refine ⟨fun o1 o2 e1 e2 => by rw [← e1, ← e2], ?_,
          fun o1 o2 e1 e2 => by rw [← e1, ← e2], ?_⟩
  · intro m1 m2 e1 e2
    rw [e1] at e2
    simp at e2
    subst e2
    exact ⟨rfl, fun i => rfl⟩
  · intro m1 m2 e1 e2
    rw [e1] at e2
    simp at e2
    subst e2
    exact ⟨rfl, fun i => rfl⟩

/-- Witness for C8 at a concrete input. -/
theorem C8_buildMessages_deterministic_witness :
    (V1.sysMsg [] :: replayMsgs []).length = (V1.sysMsg [] :: replayMsgs []).length ∧
    ∀ i : Nat, (V1.sysMsg [] :: replayMsgs [])[i]? = (V1.sysMsg [] :: replayMsgs [])[i]? :=
  (C8_buildMessages_deterministic (.arr []) (.obj [])).2.1
    (V1.sysMsg [] :: replayMsgs []) (V1.sysMsg [] :: replayMsgs []) rfl rfl

/-- C10: prompt validation is JavaScript truthiness, not string shape: every
falsy prompt (missing, empty string, null, 0, false) is answered 400 with no
upstream call, while every truthy prompt value — of any type — passes
validation and is appended verbatim as the content of the final user message
submitted upstream. -/
theorem C10_truthiness_validation (fs : List (String × JSValue)) (up : FetchResult) :
    ((fs.lookup "prompt" = none ∨ fs.lookup "prompt" = some (.str "") ∨
        fs.lookup "prompt" = some .null ∨ fs.lookup "prompt" = some (.num 0) ∨
        fs.lookup "prompt" = some (.bool false)) →
      V1.handleChat (.obj fs) up =
          ⟨none, .respond 400 (.obj [("error", .str "Missing prompt")])⟩ ∧
      V2.handleChat (.obj fs) up =
          ⟨none, .respond 400 (.obj [("error", .str "Missing prompt")])⟩)
    ∧ (∀ p h s, destructureBody (.obj fs) = .ok (p, h, s) → truthy p = true →
        (∀ msgs, V1.buildMessages h s = .ok msgs →
          (V1.handleChat (.obj fs) up).sent = some (msgs ++ [⟨.user, p⟩]))
        ∧ (∀ msgs, V2.buildMessages h s = .ok msgs →
          (V2.handleChat (.obj fs) up).sent = some (msgs ++ [⟨.user, p⟩]))) := by
  constructor
  · intro hp
    have hf : truthy ((fs.lookup "prompt").getD .undefined) = false := by
      rcases hp with h | h | h | h | h <;> simp [h, truthy]
    exact ⟨handleChatCore_falsy V1.buildMessages fs up hf,
           handleChatCore_falsy V2.buildMessages fs up hf⟩
  · intro p h s hd ht
    constructor <;> intro msgs hbm
    · show (handleChatCore V1.buildMessages (.obj fs) up).sent = _
      rw [handleChatCore_run V1.buildMessages (.obj fs) up p h s msgs hd ht hbm]
    · show (handleChatCore V2.buildMessages (.obj fs) up).sent = _
      rw [handleChatCore_run V2.buildMessages (.obj fs) up p h s msgs hd ht hbm]

/-- Witness for C10: the falsy number 0 is rejected, the truthy number 5
passes and is sent verbatim as the final user message content. -/
theorem C10_truthiness_validation_witness :
    V1.handleChat (.obj [("prompt", .num 0)]) (.throw "x") =
        ⟨none, .respond 400 (.obj [("error", .str "Missing prompt")])⟩
    ∧ (V1.handleChat (.obj [("prompt", .num 5)]) (.throw "x")).sent =
        some ((V1.sysMsg [] :: replayMsgs []) ++ [⟨.user, .num 5⟩]) := by
  constructor
  · exact ((C10_truthiness_validation [("prompt", .num 0)] (.throw "x")).1
      (Or.inr (Or.inr (Or.inr (Or.inl rfl))))).1
  · exact ((C10_truthiness_validation [("prompt", .num 5)] (.throw "x")).2
      (.num 5) (.arr []) (.obj []) rfl (by decide)).1
      (V1.sysMsg [] :: replayMsgs []) rfl
